import Mathlib

/-!
Verification of the SQL query-building core of the Smart SQL app
(`sql_utils.py`, `file_sanitizer.py`, `query_builder.py`, `history.py`),
shallowly embedded in Lean 4.  Each definition mirrors one Python function
or code block; theorems settle the specification's claims about them.
-/

deriving instance DecidableEq for Except

namespace SmartSql

/-- Python `str.strip()` on a character list: drop surrounding whitespace. -/
def stripWS (l : List Char) : List Char :=
  ((l.dropWhile Char.isWhitespace).reverse.dropWhile Char.isWhitespace).reverse

/-- Python `str.split(",")`: split on every comma, keeping empty parts. -/
def splitComma : List Char → List (List Char)
  | [] => [[]]
  | ',' :: rest => [] :: splitComma rest
  | c :: rest =>
    match splitComma rest with
    | [] => [[c]]
    | p :: ps => (c :: p) :: ps

/-- Python `str.lower()` (ASCII case fold, character by character). -/
def strLower (s : String) : String := String.mk (s.data.map Char.toLower)

/-- Python `str.endswith(suffix)`. -/
def strEndsWith (s suffix : String) : Bool := suffix.data.isSuffixOf s.data

/-! ## Identifier sanitizer (`sql_utils.sanitize_identifier`) -/

/-- Characters allowed as the first character of the identifier regex
`[a-zA-Z_]`. -/
def isIdentStart (c : Char) : Bool := c.isAlpha || c = '_'

/-- Characters allowed in the tail of the identifier regex `[a-zA-Z0-9_]`. -/
def isIdentCont (c : Char) : Bool := c.isAlphanum || c = '_'

/-- The regex `^[a-zA-Z_][a-zA-Z0-9_]*$` anchored over the WHOLE string
(Python `re.fullmatch` semantics): one start character followed by tail
characters, nothing else. -/
def identCore : List Char → Bool
  | [] => false
  | c :: rest => isIdentStart c && rest.all isIdentCont

/-- Python `re.match(r'^[a-zA-Z_][a-zA-Z0-9_]*$', s)` semantics: in Python,
`$` (without `re.MULTILINE`) matches at the end of the string OR just before
a single trailing newline.  So the match also succeeds on `body ++ "\n"`
where `body` matches the core pattern. -/
def pyMatchIdent (s : String) : Bool :=
  identCore s.data || (s.data.getLast? == some '\n' && identCore s.data.dropLast)

/-- `sql_utils.sanitize_identifier`: returns the name unchanged when the
Python regex match succeeds, otherwise raises `ValueError` (modelled as
`Except.error`) carrying the offending value. -/
def sanitize_identifier (name : String) : Except String String :=
  if pyMatchIdent name then Except.ok name
  else Except.error ("Invalid identifier: " ++ name)

/-! ## Python `float(str)` acceptance (used by the WHERE-value heuristic) -/

/-- After at least one digit of a Python numeric digit-part has been
consumed, consume the rest of the digit-part: digits, with single
underscores allowed only between digits.  Returns the remaining input, or
`none` when an underscore is not followed by a digit (which makes the whole
parse fail, as no other grammar rule can consume an underscore). -/
def chompDigits : List Char → Option (List Char)
  | [] => some []
  | ['_'] => none
  | '_' :: c :: rest => if c.isDigit then chompDigits rest else none
  | c :: rest => if c.isDigit then chompDigits rest else some (c :: rest)

/-- A Python digit-part: at least one digit, then `chompDigits`. -/
def digitPart : List Char → Option (List Char)
  | [] => none
  | c :: rest => if c.isDigit then chompDigits rest else none

/-- Optional exponent followed by end of input: empty input is accepted;
`e`/`E`, an optional sign and a digit-part consuming everything is
accepted; anything else is rejected. -/
def expTail (l : List Char) : Bool :=
  match l with
  | [] => true
  | c :: rest =>
    if c = 'e' ∨ c = 'E' then
      let rest2 := match rest with
        | s :: r => if s = '+' ∨ s = '-' then r else s :: r
        | [] => []
      match digitPart rest2 with
      | some [] => true
      | _ => false
    else false

/-- A Python float numeric literal (after sign removal): either
`. digitpart [exp]`, or `digitpart [. [digitpart]] [exp]`. -/
def pyFloatNum (l : List Char) : Bool :=
  match l with
  | '.' :: rest =>
    (match digitPart rest with
     | some r => expTail r
     | none => false)
  | _ =>
    match digitPart l with
    | none => false
    | some r =>
      match r with
      | '.' :: r2 =>
        (match r2 with
         | c :: _ =>
           if c.isDigit then
             (match digitPart r2 with
              | some r3 => expTail r3
              | none => false)
           else expTail r2
         | [] => expTail r2)
      | _ => expTail r

/-- Whether Python `float(s)` succeeds: strip surrounding whitespace, allow
one sign, then either `inf`/`infinity`/`nan` (case-insensitive) or a
numeric literal. -/
def pyFloat (s : String) : Bool :=
  let l := stripWS s.data
  let l := match l with
    | c :: rest => if c = '+' ∨ c = '-' then rest else c :: rest
    | [] => []
  let low := l.map Char.toLower
  if low = "inf".data ∨ low = "infinity".data ∨ low = "nan".data then true
  else pyFloatNum l

/-! ## Normalizing sanitizers (`sql_utils.sanitize_table_name`,
`sql_utils.sanitize_column_name`, `file_sanitizer.sanitize_column_names`) -/

/-- Python regex word character `\w` (ASCII): alphanumeric or underscore. -/
def isWordChar (c : Char) : Bool := c.isAlphanum || c = '_'

/-- `re.sub(r'[^\w]+', '_', ·)`: replace every maximal run of non-word
characters with a single underscore.  The Boolean state records whether we
are inside a non-word run whose underscore was already emitted. -/
def collapseNonWord (l : List Char) : List Char :=
  (l.foldl (fun (acc : List Char × Bool) c =>
      if isWordChar c then (acc.1 ++ [c], false)
      else if acc.2 then acc else (acc.1 ++ ['_'], true))
    ([], false)).1

/-- Python `str.strip('_')`: drop leading and trailing underscores. -/
def stripUnders (l : List Char) : List Char :=
  ((l.dropWhile (· = '_')).reverse.dropWhile (· = '_')).reverse

/-- Python `filename.rsplit('.', 1)[0]`: everything before the last dot, or
the whole string when there is no dot. -/
def stemChars (l : List Char) : List Char :=
  let r := l.reverse
  if '.' ∈ r then ((r.dropWhile (· ≠ '.')).drop 1).reverse else l

/-- `sql_utils.sanitize_table_name`: strip the extension, collapse non-word
runs to single underscores, strip surrounding underscores, lowercase. -/
def sanitize_table_name (filename : String) : String :=
  String.mk ((stripUnders (collapseNonWord (stemChars filename.data))).map Char.toLower)

/-- `sql_utils.sanitize_column_name`: collapse non-word runs to single
underscores, strip surrounding underscores, lowercase.  No de-duplication. -/
def sanitize_column_name (col : String) : String :=
  String.mk ((stripUnders (collapseNonWord col.data)).map Char.toLower)

/-- `re.sub(r'[^a-zA-Z0-9]', '_', ·)`: replace every non-alphanumeric
character (underscores included) with an underscore. -/
def fsMask (l : List Char) : List Char :=
  l.map (fun c => if c.isAlphanum then c else '_')

/-- `re.sub(r'_\x7b2,\x7d', '_', ·)`: collapse every run of underscores to a
single underscore (runs of length one are unchanged). -/
def collapseUnders (l : List Char) : List Char :=
  (l.foldl (fun (acc : List Char × Bool) c =>
      if c = '_' then (if acc.2 then acc else (acc.1 ++ ['_'], true))
      else (acc.1 ++ [c], false))
    ([], false)).1

/-- The per-header cleaning step of `file_sanitizer.sanitize_column_names`:
mask non-alphanumerics, collapse underscore runs, strip surrounding
underscores, lowercase. -/
def fsClean (col : String) : String :=
  String.mk ((stripUnders (collapseUnders (fsMask col.data))).map Char.toLower)

/-- The decimal digit character for a value below ten. -/
def digitChar (d : Nat) : Char :=
  if d = 0 then '0' else if d = 1 then '1' else if d = 2 then '2'
  else if d = 3 then '3' else if d = 4 then '4' else if d = 5 then '5'
  else if d = 6 then '6' else if d = 7 then '7' else if d = 8 then '8'
  else '9'

/-- The numeric value of a decimal digit character. -/
def digitVal (c : Char) : Nat :=
  if c = '0' then 0 else if c = '1' then 1 else if c = '2' then 2
  else if c = '3' then 3 else if c = '4' then 4 else if c = '5' then 5
  else if c = '6' then 6 else if c = '7' then 7 else if c = '8' then 8
  else 9

/-- Fuel-bounded big-endian decimal digits of a natural number (empty for
zero); with fuel exceeding the number, the fuel never runs out. -/
def natDigitsAux : Nat → Nat → List Char
  | 0, _ => []
  | fuel + 1, n =>
    if n = 0 then [] else natDigitsAux fuel (n / 10) ++ [digitChar (n % 10)]

/-- Decimal string of a natural number (Python `str(i)` / f-string
interpolation of an int). -/
def natRepr (n : Nat) : String :=
  if n = 0 then "0" else String.mk (natDigitsAux (n + 1) n)

/-- The collision-resolving loop of `file_sanitizer.sanitize_column_names`:
`i = 1; while f"(clean)_(i)" in seen: i += 1`, fuel-bounded (with fuel
exceeding the number of names already seen, a fresh name is always found
before the fuel runs out). -/
def freshAux (base : String) (seen : List String) : Nat → Nat → String
  | 0, i => base ++ "_" ++ natRepr i
  | fuel + 1, i =>
    if (base ++ "_" ++ natRepr i) ∈ seen then freshAux base seen fuel (i + 1)
    else base ++ "_" ++ natRepr i

/-- One iteration of `sanitize_column_names`: clean the header and, on
collision with an already-produced name, suffix `_1`, `_2`, … until fresh. -/
def dedupStep (seen : List String) (col : String) : String :=
  let clean := fsClean col
  if clean ∈ seen then freshAux clean seen (seen.length + 1) 1 else clean

/-- `file_sanitizer.sanitize_column_names` on the list of raw headers:
clean each header in order, resolving collisions by numeric suffixes. -/
def sanitize_column_names (headers : List String) : List String :=
  headers.foldl (fun acc col => acc ++ [dedupStep acc col]) []

/-! ## Tabular loader (`sql_utils.load_file_as_table`) -/

/-- An in-memory dataframe; the embedding tracks the column headers, which
is all the sanitization logic touches. -/
structure Frame where
  columns : List String
deriving DecidableEq

/-- File metadata as handed to the loader. -/
structure FileObj where
  file_name : String
  full_path : String
deriving DecidableEq

/-- Python dict assignment `tables[k] = v` on an insertion-ordered dict. -/
def dictSet (d : List (String × Frame)) (k : String) (v : Frame) :
    List (String × Frame) :=
  if d.any (fun p => p.1 = k) then d.map (fun p => if p.1 = k then (k, v) else p)
  else d ++ [(k, v)]

/-- One iteration of the loader's per-file loop: derive the table name,
fetch a signed URL, dispatch on the extension, parse, sanitize the column
headers and register the table; every failure appends a warning naming the
file and registers nothing.  `getUrl` models `get_signed_url`; `readCsv` /
`readExcel` model `pandas.read_csv` / `read_excel` on the fetched URL. -/
def loadStep (getUrl : String → Option String)
    (readCsv readExcel : String → Except String Frame)
    (acc : List (String × Frame) × List String) (fo : FileObj) :
    List (String × Frame) × List String :=
  let table_name := sanitize_table_name fo.file_name
  match getUrl fo.full_path with
  | none => (acc.1, acc.2 ++ ["Could not get URL for " ++ fo.file_name])
  | some url =>
    if strEndsWith fo.file_name ".csv" then
      match readCsv url with
      | .ok df => (dictSet acc.1 table_name ⟨df.columns.map sanitize_column_name⟩, acc.2)
      | .error e => (acc.1, acc.2 ++ ["Error loading " ++ fo.file_name ++ ": " ++ e])
    else if strEndsWith fo.file_name ".xls" || strEndsWith fo.file_name ".xlsx" then
      match readExcel url with
      | .ok df => (dictSet acc.1 table_name ⟨df.columns.map sanitize_column_name⟩, acc.2)
      | .error e => (acc.1, acc.2 ++ ["Error loading " ++ fo.file_name ++ ": " ++ e])
    else (acc.1, acc.2 ++ ["Unsupported file format: " ++ fo.file_name])

/-- `sql_utils.load_file_as_table` over a list of file objects: fold the
per-file loop from an empty table dict and warning list. -/
def load_file_as_table (files : List FileObj) (getUrl : String → Option String)
    (readCsv readExcel : String → Except String Frame) :
    List (String × Frame) × List String :=
  files.foldl (loadStep getUrl readCsv readExcel) ([], [])

/-! ## Query model and compiler (`query_builder.render_query_builder_ui`,
lines 181-240) -/

/-- One entry of `st.session_state.join_conditions`. -/
structure JoinCond where
  left_table : String
  right_table : String
  col : String
  operator : String
deriving DecidableEq

/-- One entry of `st.session_state.conditions`. -/
structure Cond where
  column : String
  operator : String
  value : String
deriving DecidableEq

/-- The query model as the UI accumulates it: selection-ordered tables and
columns, the aggregate dict, the join list, the filter list, the order
selectbox value (the literal string "None" when unset), the direction and
the limit. -/
structure Model where
  tables : List String
  columns : List String
  aggs : List (String × String)
  joins : List JoinCond
  conds : List Cond
  orderCol : String
  orderDir : String
  limit : Nat
deriving DecidableEq

/-- Python dict lookup on an assoc list built by repeated assignment: the
last binding of a key wins. -/
def dictGet (l : List (String × String)) (k : String) : Option String :=
  l.foldl (fun acc p => if p.1 = k then some p.2 else acc) none

/-- Sanitize every name of a list, stopping at the first failure
(the list comprehension `[sanitize_identifier(col) for col in cols]`). -/
def sanitizeAll : List String → Except String (List String)
  | [] => Except.ok []
  | c :: cs =>
    match sanitize_identifier c with
    | .error e => .error e
    | .ok cid =>
      match sanitizeAll cs with
      | .error e => .error e
      | .ok rest => .ok (cid :: rest)

/-- The aggregate branch of the SELECT loop (lines 189-197): for each
selected column in order, a mapped column renders as
`FUNC(col) AS func_col` and an unmapped one renders bare and joins the
GROUP BY accumulator. -/
def buildSelectAgg (aggs : List (String × String)) :
    List String → Except String (List String × List String)
  | [] => Except.ok ([], [])
  | c :: cs =>
    match sanitize_identifier c with
    | .error e => .error e
    | .ok cid =>
      match buildSelectAgg aggs cs with
      | .error e => .error e
      | .ok pr =>
        match dictGet aggs c with
        | some f => .ok ((f ++ "(" ++ cid ++ ") AS " ++ strLower f ++ "_" ++ cid) :: pr.1, pr.2)
        | none => .ok (cid :: pr.1, cid :: pr.2)

/-- The SELECT-parts construction (lines 183-200): aggregate branch when
the aggregate dict is non-empty, else plain sanitized columns with an
empty GROUP BY accumulator. -/
def buildSelect (aggs : List (String × String)) (cols : List String) :
    Except String (List String × List String) :=
  if aggs.isEmpty then
    match sanitizeAll cols with
    | .error e => .error e
    | .ok ps => .ok (ps, [])
  else buildSelectAgg aggs cols

/-- The join-rendering loop (lines 204-209): each join appends
` <op> <rt> ON <lt>.<col> = <rt>.<col>`. -/
def renderJoins : List JoinCond → Except String String
  | [] => Except.ok ""
  | jc :: rest =>
    match sanitize_identifier jc.left_table with
    | .error e => .error e
    | .ok lt =>
      match sanitize_identifier jc.right_table with
      | .error e => .error e
      | .ok rt =>
        match sanitize_identifier jc.col with
        | .error e => .error e
        | .ok c =>
          match renderJoins rest with
          | .error e => .error e
          | .ok restStr =>
            .ok (" " ++ jc.operator ++ " " ++ rt ++ " ON " ++ lt ++ "." ++ c
                 ++ " = " ++ rt ++ "." ++ c ++ restStr)

/-- Rendering of one WHERE condition (lines 213-230), dispatching on the
operator: null checks render bare, `IN` splits on commas and quotes each
trimmed part, `LIKE` wraps in percent signs and quotes, and every other
operator quotes the value unless Python `float(value)` succeeds. -/
def renderCond (c : Cond) : Except String String :=
  match sanitize_identifier c.column with
  | .error e => .error e
  | .ok col =>
    if c.operator = "IS NULL" ∨ c.operator = "IS NOT NULL" then
      .ok (col ++ " " ++ c.operator)
    else if c.operator = "IN" then
      .ok (col ++ " IN ("
           ++ String.intercalate ", "
                ((splitComma c.value.data).map
                  (fun v => "'" ++ String.mk (stripWS v) ++ "'"))
           ++ ")")
    else if c.operator = "LIKE" then
      .ok (col ++ " LIKE '%" ++ c.value ++ "%'")
    else if pyFloat c.value then
      .ok (col ++ " " ++ c.operator ++ " " ++ c.value)
    else
      .ok (col ++ " " ++ c.operator ++ " '" ++ c.value ++ "'")

/-- Render every condition in order, stopping at the first failure. -/
def renderConds : List Cond → Except String (List String)
  | [] => Except.ok []
  | c :: cs =>
    match renderCond c with
    | .error e => .error e
    | .ok r =>
      match renderConds cs with
      | .error e => .error e
      | .ok rest => .ok (r :: rest)

/-- The WHERE clause (lines 211-232): empty when there are no conditions,
else ` WHERE ` followed by the renderings joined with ` AND `. -/
def renderWhere (conds : List Cond) : Except String String :=
  if conds.isEmpty then Except.ok ""
  else
    match renderConds conds with
    | .error e => .error e
    | .ok cl => .ok (" WHERE " ++ String.intercalate " AND " cl)

/-- The GROUP BY clause (lines 234-235): emitted exactly when the
accumulated group-by list is non-empty. -/
def groupClause (gs : List String) : String :=
  if gs.isEmpty then "" else " GROUP BY " ++ String.intercalate ", " gs

/-- The ORDER BY clause (lines 237-238): emitted unless the order selectbox
holds the sentinel value "None". -/
def renderOrder (oc dir : String) : Except String String :=
  if oc = "None" then Except.ok ""
  else
    match sanitize_identifier oc with
    | .error e => .error e
    | .ok c => .ok (" ORDER BY " ++ c ++ " " ++ dir)

/-- The SQL generation block (lines 181-240) as a function of the model:
SELECT parts (or `*` when empty), FROM the first selected table, joins,
WHERE, GROUP BY, ORDER BY and an unconditional LIMIT. -/
def compile (m : Model) : Except String String :=
  match sanitize_identifier (m.tables.headD "") with
  | .error e => .error e
  | .ok base =>
    match buildSelect m.aggs m.columns with
    | .error e => .error e
    | .ok pr =>
      match renderJoins m.joins with
      | .error e => .error e
      | .ok joinStr =>
        match renderWhere m.conds with
        | .error e => .error e
        | .ok whereStr =>
          match renderOrder m.orderCol m.orderDir with
          | .error e => .error e
          | .ok ordStr =>
            .ok ("SELECT "
                 ++ (if pr.1.isEmpty then "*" else String.intercalate ", " pr.1)
                 ++ " FROM " ++ base ++ joinStr ++ whereStr ++ groupClause pr.2
                 ++ ordStr ++ " LIMIT " ++ natRepr m.limit)

/-! ## Session-state join maintenance (lines 108-137) -/

/-- One rerun of the join-section code: when at most one table is selected
the join list is reset to empty; otherwise, for each consecutive pair of
selected tables with at least one common column, the entry at that index is
overwritten with the pair chosen in the UI (`pick` gives the selectbox
values for join column and join type), appending one blank entry first when
the list is too short.  Entries at indices beyond the current pair count
are left untouched. -/
def updateJoins (tables : List String) (colsOf : String → List String)
    (pick : Nat → String × String) (prev : List JoinCond) : List JoinCond :=
  if tables.length ≤ 1 then []
  else
    (List.range (tables.length - 1)).foldl (fun jcs i =>
      let t1 := tables.getD i ""
      let t2 := tables.getD (i + 1) ""
      let common := (colsOf t1).filter (fun c => c ∈ colsOf t2)
      if common.isEmpty then jcs
      else
        let p := pick i
        let jcs2 := if jcs.length ≤ i then jcs ++ [⟨"", "", "", ""⟩] else jcs
        jcs2.set i ⟨t1, t2, p.1, p.2⟩) prev

/-! ## History (`history.add_to_history`) and the run handler
(lines 245-259) -/

/-- One entry of `st.session_state.history` (the timestamp is external
wall-clock input and is not modelled). -/
structure HistEvent where
  action_type : String
  content : String
  error : Option String
deriving DecidableEq

/-- `history.add_to_history` on the session history list: append, then keep
only the last 100 entries. -/
def add_to_history (h : List HistEvent) (e : HistEvent) : List HistEvent :=
  let h2 := h ++ [e]
  if 100 < h2.length then h2.drop (h2.length - 100) else h2

/-- Observable outcome of one press of the Run Query button. -/
structure RunOutcome where
  shown : Option Frame
  errorMsg : Option String
  history : List HistEvent
  submitted : List String
deriving DecidableEq

/-- The Run Query handler (lines 245-259): submit the compiled SQL to the
engine exactly once; on success display the rows and record a
`query_executed` event; on failure display `Query failed: <msg>`, display
no rows and record a `query_failed` event carrying the SQL text and the
engine's message. -/
def runQueryHandler (engine : String → Except String Frame) (query : String) :
    RunOutcome :=
  match engine query with
  | .ok df =>
    { shown := some df
      errorMsg := none
      history := [⟨"query_executed", query, none⟩]
      submitted := [query] }
  | .error e =>
    { shown := none
      errorMsg := some ("Query failed: " ++ e)
      history := [⟨"query_failed", query, some e⟩]
      submitted := [query] }

/-! ## Concrete scenario used to exercise the join-maintenance code -/

/-- Column sets of three demo tables: `t1` and `t2` share column `a`,
`t2` and `t3` share column `b`. -/
def demoCols : String → List String := fun t =>
  if t = "t1" then ["a"]
  else if t = "t2" then ["a", "b"]
  else if t = "t3" then ["b"] else []

/-- UI selectbox choices for the demo: join the first pair on `a`, the
second pair on `b`, both as INNER JOIN. -/
def demoPick : Nat → String × String := fun i =>
  if i = 0 then ("a", "INNER JOIN") else ("b", "INNER JOIN")

/-- Session join list after a rerun with all three demo tables selected. -/
def demoJoins1 : List JoinCond := updateJoins ["t1", "t2", "t3"] demoCols demoPick []

/-- Session join list after the next rerun, in which table `t3` has been
removed from the selection. -/
def demoJoins2 : List JoinCond := updateJoins ["t1", "t2"] demoCols demoPick demoJoins1

/-- The model state after the removal of `t3`, carrying the surviving
session join list. -/
def demoModelAfterRemoval : Model :=
  ⟨["t1", "t2"], ["a"], [], demoJoins2, [], "None", "ASC", 100⟩

/-- A basic demo model: one table, two columns, no aggregates, filters,
joins or ordering, limit 50. -/
def demoModel : Model := ⟨["orders"], ["id", "total"], [], [], [], "None", "ASC", 50⟩

/-- Numeric value of a big-endian decimal digit list. -/
def valBE (l : List Char) : Nat := l.foldl (fun a c => 10 * a + digitVal c) 0

/-! # Theorems -/

/-- Successful sanitization returns the input unchanged. -/
theorem sanitize_ok_eq {s t : String} (h : sanitize_identifier s = Except.ok t) :
    t = s := by
  unfold sanitize_identifier at h
  split at h
  · cases h; rfl
  · cases h

/-- String data of a concatenation is the concatenation of the data. -/
theorem strData_append (a b : String) : (a ++ b).data = a.data ++ b.data := by
  cases a; cases b; rfl

/-- Strings with equal character data are equal. -/
theorem strExt {a b : String} (h : a.data = b.data) : a = b := by
  cases a; cases b; cases h; rfl

/-- Whatever `compile` returns successfully was assembled from successful
renderings of each clause, concatenated in the fixed clause order. -/
theorem compile_ok_elim {m : Model} {s : String} (h : compile m = Except.ok s) :
    ∃ base parts groups joinStr whereStr ordStr,
      sanitize_identifier (m.tables.headD "") = Except.ok base ∧
      buildSelect m.aggs m.columns = Except.ok (parts, groups) ∧
      renderJoins m.joins = Except.ok joinStr ∧
      renderWhere m.conds = Except.ok whereStr ∧
      renderOrder m.orderCol m.orderDir = Except.ok ordStr ∧
      s = "SELECT " ++ (if parts.isEmpty then "*" else String.intercalate ", " parts)
          ++ " FROM " ++ base ++ joinStr ++ whereStr ++ groupClause groups
          ++ ordStr ++ " LIMIT " ++ natRepr m.limit := by
  unfold compile at h
  split at h
  · cases h
  next base hbase =>
    split at h
    · cases h
    next pr hsel =>
      split at h
      · cases h
      next joinStr hjoin =>
        split at h
        · cases h
        next whereStr hwhere =>
          split at h
          · cases h
          next ordStr hord =>
            cases h
            exact ⟨base, pr.1, pr.2, joinStr, whereStr, ordStr,
              hbase, by rw [hsel], hjoin, hwhere, hord, rfl⟩

/-- A successful ORDER BY rendering is empty exactly on the sentinel, and
otherwise names the order column and direction. -/
theorem renderOrder_ok_elim {oc dir ostr : String}
    (h : renderOrder oc dir = Except.ok ostr) :
    (oc = "None" → ostr = "") ∧
    (oc ≠ "None" → ostr = " ORDER BY " ++ oc ++ " " ++ dir) := by
  unfold renderOrder at h
  split at h
  next hoc =>
    cases h
    exact ⟨fun _ => rfl, fun hne => absurd hoc hne⟩
  next hoc =>
    split at h
    · cases h
    next c hc =>
      cases h
      have := sanitize_ok_eq hc
      subst this
      exact ⟨fun heq => absurd heq hoc, fun _ => rfl⟩

/-- C1: For every string s, sanitizeIdentifier(s) returns s unchanged if and
only if s matches `^[A-Za-z_][A-Za-z0-9_]*$` anchored over the whole string,
failing with InvalidIdentifier otherwise.  This FAILS on the code: Python's
`re.match` with `$` also accepts a single trailing newline, so the
two-character string "a\n" does not match the anchored regex
(`identCore`), yet `sanitize_identifier` returns it unchanged instead of
failing. -/
theorem sanitizeIdentifier_trailing_newline_bug :
    sanitize_identifier "a\n" = Except.ok "a\n" ∧
    identCore "a\n".data = false ∧
    pyMatchIdent "a\n" = true ∧
    (∀ s : String, identCore s.data = true → sanitize_identifier s = Except.ok s) := by
  refine ⟨by decide, by decide, by decide, ?_⟩
  intro s h
  unfold sanitize_identifier pyMatchIdent
  rw [h]
  simp

/-- Witness for C1: the positive direction of the regex check at a
concrete valid identifier. -/
theorem sanitizeIdentifier_trailing_newline_bug_witness :
    sanitize_identifier "orders" = Except.ok "orders" :=
  sanitizeIdentifier_trailing_newline_bug.2.2.2 "orders" (by decide)

/-- C8: When the engine rejects the submitted SQL, the handler shows no
rows, submits the query to the engine exactly once (no retry), surfaces the
engine's original message, and records a history event with action type
"query_failed", the SQL text as content, and the error string; on success
the event has action type "query_executed". -/
theorem runQueryHandler_events {engine : String → Except String Frame} {q : String} :
    (∀ e, engine q = Except.error e →
      runQueryHandler engine q =
        ⟨none, some ("Query failed: " ++ e), [⟨"query_failed", q, some e⟩], [q]⟩) ∧
    (∀ df, engine q = Except.ok df →
      runQueryHandler engine q =
        ⟨some df, none, [⟨"query_executed", q, none⟩], [q]⟩) := by
  constructor
  · intro e he
    unfold runQueryHandler
    rw [he]
  · intro df hdf
    unfold runQueryHandler
    rw [hdf]

/-- Witness for C8 at a concrete always-failing engine and a concrete
always-succeeding engine. -/
theorem runQueryHandler_events_witness :
    runQueryHandler (fun _ => Except.error "syntax error") "SELEC 1" =
      ⟨none, some ("Query failed: " ++ "syntax error"),
       [⟨"query_failed", "SELEC 1", some "syntax error"⟩], ["SELEC 1"]⟩ ∧
    runQueryHandler (fun _ => Except.ok ⟨["id"]⟩) "SELECT id FROM t" =
      ⟨some ⟨["id"]⟩, none, [⟨"query_executed", "SELECT id FROM t", none⟩],
       ["SELECT id FROM t"]⟩ :=
  ⟨runQueryHandler_events.1 "syntax error" rfl,
   runQueryHandler_events.2 ⟨["id"]⟩ rfl⟩

/-- C9: compilation is a deterministic, side-effect-free function of the
model: compiling the same unmodified model twice yields identical SQL
text. -/
theorem compile_deterministic (m1 m2 : Model) (h : m1 = m2) :
    compile m1 = compile m2 := by rw [h]

/-- Witness for C9 at the concrete demo model. -/
theorem compile_deterministic_witness :
    compile demoModel = compile demoModel :=
  compile_deterministic demoModel demoModel rfl

/-- C10: after any sequence of `add_to_history` calls starting from the
empty session history, the history holds exactly the (at most) 100 most
recently added entries, oldest discarded first, hence never more than 100
entries. -/
theorem add_to_history_capped (es : List HistEvent) :
    List.foldl add_to_history [] es = es.drop (es.length - 100) ∧
    (List.foldl add_to_history [] es).length ≤ 100 := by
  have main : List.foldl add_to_history [] es = es.drop (es.length - 100) := by
    induction es using List.reverseRecOn with
    | nil => rfl
    | append_singleton es e ih =>
      rw [List.foldl_append, List.foldl_cons, List.foldl_nil, ih]
      unfold add_to_history
      simp only [List.length_append, List.length_drop, List.length_singleton]
      by_cases hle : es.length ≤ 99
      · rw [if_neg (by omega)]
        have h0 : es.length - 100 = 0 := by omega
        have h1 : es.length + 1 - 100 = 0 := by omega
        rw [h0, h1, List.drop_zero, List.drop_zero]
      · rw [if_pos (by omega)]
        have hlen : es.length - (es.length - 100) = 100 := by omega
        rw [hlen]
        have h2 : (100 : Nat) + 1 - 100 = 1 := by omega
        rw [h2]
        rw [List.drop_append_of_le_length (by simp [List.length_drop]; omega)]
        rw [List.drop_drop]
        rw [List.drop_append_of_le_length (by omega)]
        have harith : es.length - 100 + 1 = es.length + 1 - 100 := by omega
        rw [harith]
  refine ⟨main, ?_⟩
  rw [main, List.length_drop]
  omega

/-- C2: FilterPredicate rendering per operator: IS NULL / IS NOT NULL
render bare; IN splits the value on commas, trims each part and quotes each
part inside parentheses; LIKE wraps the value in percent signs and quotes
it; every other operator renders the value unquoted exactly when Python
`float(value)` succeeds, quoted otherwise; predicates join with ` AND `;
and in particular (amount, >, 100) renders `amount > 100` while
(status, =, shipped) renders `status = 'shipped'`. -/
theorem where_rendering_spec :
    (∀ c r, renderCond c = Except.ok r →
      ((c.operator = "IS NULL" ∨ c.operator = "IS NOT NULL") →
        r = c.column ++ " " ++ c.operator) ∧
      (c.operator = "IN" →
        r = c.column ++ " IN ("
            ++ String.intercalate ", "
                 ((splitComma c.value.data).map (fun v => "'" ++ String.mk (stripWS v) ++ "'"))
            ++ ")") ∧
      (c.operator = "LIKE" → r = c.column ++ " LIKE '%" ++ c.value ++ "%'") ∧
      (c.operator ≠ "IS NULL" → c.operator ≠ "IS NOT NULL" → c.operator ≠ "IN" →
        c.operator ≠ "LIKE" →
        r = if pyFloat c.value then c.column ++ " " ++ c.operator ++ " " ++ c.value
            else c.column ++ " " ++ c.operator ++ " '" ++ c.value ++ "'")) ∧
    (∀ conds cl, conds ≠ [] → renderConds conds = Except.ok cl →
      renderWhere conds = Except.ok (" WHERE " ++ String.intercalate " AND " cl)) ∧
    renderCond ⟨"amount", ">", "100"⟩ = Except.ok "amount > 100" ∧
    renderCond ⟨"status", "=", "shipped"⟩ = Except.ok "status = 'shipped'" := by
  refine ⟨?_, ?_, by decide, by decide⟩
  · intro c r h
    unfold renderCond at h
    split at h
    · cases h
    next col hcol =>
      have hceq := sanitize_ok_eq hcol
      subst hceq
      refine ⟨?_, ?_, ?_, ?_⟩
      · intro hop
        rw [if_pos hop] at h
        cases h; rfl
      · intro hop
        simp only [hop] at h
        rw [if_pos trivial] at h
        cases h; rfl
      · intro hop
        simp only [hop] at h
        rw [if_pos trivial] at h
        cases h; rfl
      · intro h1 h2 h3 h4
        rw [if_neg (not_or.2 ⟨h1, h2⟩), if_neg h3, if_neg h4] at h
        by_cases hf : pyFloat c.value = true
        · rw [if_pos hf] at h
          rw [if_pos hf]
          cases h; rfl
        · rw [if_neg hf] at h
          rw [if_neg hf]
          cases h; rfl
  · intro conds cl hne hcl
    unfold renderWhere
    rw [if_neg (by simp [List.isEmpty_iff, hne]), hcl]

/-- Witness for C2: the IS NULL shape at a concrete predicate, and the
` AND `-joined WHERE clause at a concrete two-predicate list. -/
theorem where_rendering_spec_witness :
    ("x IS NULL" : String) = "x" ++ " " ++ "IS NULL" ∧
    renderWhere [⟨"amount", ">", "100"⟩, ⟨"status", "=", "shipped"⟩] =
      Except.ok (" WHERE "
        ++ String.intercalate " AND " ["amount > 100", "status = 'shipped'"]) :=
  ⟨(where_rendering_spec.1 ⟨"x", "IS NULL", ""⟩ "x IS NULL" (by decide)).1 (Or.inl rfl),
   where_rendering_spec.2.1 [⟨"amount", ">", "100"⟩, ⟨"status", "=", "shipped"⟩]
     ["amount > 100", "status = 'shipped'"] (by decide) (by decide)⟩

/-- C3: with a non-empty AggregateAssignment, each selected column mapped
to FUNC renders as `FUNC(col) AS func_col` (alias in lowercase), each
unmapped column renders bare and joins the GROUP BY list, SELECT preserves
selection order, a GROUP BY clause appears exactly when that list is
non-empty, and the worked example compiles to
`SELECT region, SUM(total) AS sum_total FROM orders GROUP BY region LIMIT n`. -/
theorem aggregate_select_spec :
    (∀ n : Nat,
      compile ⟨["orders"], ["region", "total"], [("total", "SUM")], [], [], "None", "ASC", n⟩ =
        Except.ok ("SELECT region, SUM(total) AS sum_total FROM orders GROUP BY region LIMIT "
          ++ natRepr n)) ∧
    (∀ aggs cols parts groups, buildSelectAgg aggs cols = Except.ok (parts, groups) →
      parts = cols.map (fun c =>
        match dictGet aggs c with
        | some f => f ++ "(" ++ c ++ ") AS " ++ strLower f ++ "_" ++ c
        | none => c) ∧
      groups = cols.filter (fun c => (dictGet aggs c).isNone)) ∧
    (∀ gs, groupClause gs = "" ↔ gs = []) ∧
    (∀ m s, m.aggs ≠ [] → compile m = Except.ok s →
      ∃ parts groups pre ostr,
        buildSelectAgg m.aggs m.columns = Except.ok (parts, groups) ∧
        s = pre ++ groupClause groups ++ ostr ++ " LIMIT " ++ natRepr m.limit) := by
  refine ⟨fun n => rfl, ?_, ?_, ?_⟩
  · intro aggs cols
    induction cols with
    | nil =>
      intro parts groups h
      cases h
      exact ⟨rfl, rfl⟩
    | cons c cs ih =>
      intro parts groups h
      unfold buildSelectAgg at h
      split at h
      · cases h
      next cid hcid =>
        have hcz := sanitize_ok_eq hcid
        subst hcz
        split at h
        · cases h
        next pr hpr =>
          have hih := ih pr.1 pr.2 (by rw [hpr])
          split at h
          next f hf =>
            cases h
            constructor
            · simp only [List.map_cons, hf, hih.1]
            · simp only [List.filter_cons, hf, Option.isNone_some, hih.2]
              rfl
          next hf =>
            cases h
            constructor
            · simp only [List.map_cons, hf, hih.1]
            · simp only [List.filter_cons, hf, Option.isNone_none, hih.2]
              rfl
  · intro gs
    cases gs with
    | nil => simp [groupClause]
    | cons a t =>
      unfold groupClause
      rw [if_neg (by simp)]
      constructor
      · intro h
        exfalso
        have hd := congrArg String.data h
        rw [strData_append] at hd
        simp at hd
      · intro h
        cases h
  · intro m s hne h
    obtain ⟨base, parts, groups, joinStr, whereStr, ordStr, hbase, hsel, hjoin, hwhere, hord, hs⟩ :=
      compile_ok_elim h
    have hsel2 : buildSelectAgg m.aggs m.columns = Except.ok (parts, groups) := by
      unfold buildSelect at hsel
      rw [if_neg (by simp [List.isEmpty_iff, hne])] at hsel
      exact hsel
    exact ⟨parts, groups,
      "SELECT " ++ (if parts.isEmpty then "*" else String.intercalate ", " parts)
        ++ " FROM " ++ base ++ joinStr ++ whereStr, ordStr, hsel2, hs⟩

/-- Witness for C3: the general SELECT/GROUP BY shape instantiated at the
worked aggregate example. -/
theorem aggregate_select_spec_witness :
    (["region", "SUM(total) AS sum_total"] : List String) =
      (["region", "total"] : List String).map (fun c =>
        match dictGet [("total", "SUM")] c with
        | some f => f ++ "(" ++ c ++ ") AS " ++ strLower f ++ "_" ++ c
        | none => c) ∧
    (["region"] : List String) =
      (["region", "total"] : List String).filter
        (fun c => (dictGet [("total", "SUM")] c).isNone) :=
  aggregate_select_spec.2.1 [("total", "SUM")] ["region", "total"]
    ["region", "SUM(total) AS sum_total"] ["region"] (by decide)

/-- C4: the basic model (tables=[orders], columns=[id,total], no
aggregates, no filters, no order, limit 50) compiles to exactly
`SELECT id, total FROM orders LIMIT 50`; and every successfully compiled
SQL text ends with ` LIMIT <n>`, with an ORDER BY segment present exactly
when an order column is set (the selectbox sentinel "None" means unset). -/
theorem basic_compile_and_limit :
    compile demoModel = Except.ok "SELECT id, total FROM orders LIMIT 50" ∧
    (∀ m s, compile m = Except.ok s → ∃ pre ostr,
      s = pre ++ ostr ++ " LIMIT " ++ natRepr m.limit ∧
      (m.orderCol = "None" → ostr = "") ∧
      (m.orderCol ≠ "None" → ostr = " ORDER BY " ++ m.orderCol ++ " " ++ m.orderDir)) := by
  refine ⟨by decide, ?_⟩
  intro m s h
  obtain ⟨base, parts, groups, joinStr, whereStr, ordStr, hbase, hsel, hjoin, hwhere, hord, hs⟩ :=
    compile_ok_elim h
  obtain ⟨hnone, hsome⟩ := renderOrder_ok_elim hord
  exact ⟨"SELECT " ++ (if parts.isEmpty then "*" else String.intercalate ", " parts)
      ++ " FROM " ++ base ++ joinStr ++ whereStr ++ groupClause groups,
    ordStr, hs, hnone, hsome⟩

/-- Witness for C4: the general LIMIT/ORDER BY shape instantiated at the
demo model, whose compilation is supplied by the same theorem. -/
theorem basic_compile_and_limit_witness :
    ∃ pre ostr,
      "SELECT id, total FROM orders LIMIT 50" = pre ++ ostr ++ " LIMIT " ++ natRepr demoModel.limit ∧
      (demoModel.orderCol = "None" → ostr = "") ∧
      (demoModel.orderCol ≠ "None" →
        ostr = " ORDER BY " ++ demoModel.orderCol ++ " " ++ demoModel.orderDir) :=
  basic_compile_and_limit.2 demoModel "SELECT id, total FROM orders LIMIT 50"
    basic_compile_and_limit.1

/-- C6: the claim says removing a table that participates in a JoinEdge
also removes that edge, so no dangling join survives or is rendered.  The
code violates this: starting from tables [t1, t2, t3] with joins
(t1-t2 on a) and (t2-t3 on b), removing t3 reruns the join-maintenance
code, which only overwrites indices below the new pair count and leaves
the stale t2-t3 edge in the session list; the compiler then renders
` INNER JOIN t3 ON t2.b = t3.b` into the SQL although t3 is no longer
selected. -/
theorem stale_join_rendered_after_removal :
    demoJoins1 = [⟨"t1", "t2", "a", "INNER JOIN"⟩, ⟨"t2", "t3", "b", "INNER JOIN"⟩] ∧
    demoJoins2 = [⟨"t1", "t2", "a", "INNER JOIN"⟩, ⟨"t2", "t3", "b", "INNER JOIN"⟩] ∧
    demoModelAfterRemoval.tables = ["t1", "t2"] ∧
    ¬ ("t3" ∈ demoModelAfterRemoval.tables) ∧
    demoJoins2.any (fun jc => !(jc.right_table ∈ ["t1", "t2"] : Bool)) = true ∧
    compile demoModelAfterRemoval =
      Except.ok
        "SELECT a FROM t1 INNER JOIN t2 ON t1.a = t2.a INNER JOIN t3 ON t2.b = t3.b LIMIT 100" := by
  decide

/-- C5 counterexample: the claim says loading a table with raw headers
[Name, name, NAME] yields pairwise-distinct columns [name, name_1, name_2].
The query-path loader (`sql_utils.load_file_as_table`) sanitizes each
header independently with no de-duplication, so it registers the table
with columns [name, name, name]: duplicated, and not the claimed value. -/
theorem loader_dedup_counterexample :
    (load_file_as_table [⟨"dup.csv", "p"⟩] (fun _ => some "u")
        (fun _ => Except.ok ⟨["Name", "name", "NAME"]⟩) (fun _ => Except.error "unused")).1 =
      [("dup", ⟨["name", "name", "name"]⟩)] ∧
    ¬ (["name", "name", "name"] : List String).Nodup ∧
    (["name", "name", "name"] : List String) ≠ ["name", "name_1", "name_2"] := by
  decide

/-- The digit character of a value below ten evaluates back to it. -/
theorem digitVal_digitChar {d : Nat} (h : d < 10) : digitVal (digitChar d) = d := by
  interval_cases d <;> decide

/-- Appending one digit multiplies the value by ten and adds the digit. -/
theorem valBE_append (l : List Char) (c : Char) :
    valBE (l ++ [c]) = 10 * valBE l + digitVal c := by
  unfold valBE
  rw [List.foldl_append]
  rfl

/-- With enough fuel, the digit string of a natural evaluates back to it. -/
theorem valBE_natDigitsAux : ∀ fuel n, n < fuel → valBE (natDigitsAux fuel n) = n := by
  intro fuel
  induction fuel with
  | zero => intro n h; omega
  | succ f ih =>
    intro n h
    unfold natDigitsAux
    by_cases h0 : n = 0
    · rw [if_pos h0, h0]
      rfl
    · rw [if_neg h0, valBE_append]
      have hdiv : n / 10 < f := by
        have hlt : n / 10 < n := Nat.div_lt_self (Nat.pos_of_ne_zero h0) (by omega)
        omega
      rw [ih (n / 10) hdiv, digitVal_digitChar (Nat.mod_lt n (by omega))]
      omega

/-- Decimal representations of distinct naturals are distinct. -/
theorem natRepr_inj {m n : Nat} (h : natRepr m = natRepr n) : m = n := by
  have hd := congrArg String.data h
  unfold natRepr at hd
  by_cases hm : m = 0 <;> by_cases hn : n = 0
  · omega
  · exfalso
    rw [if_pos hm, if_neg hn] at hd
    have hd2 : ("0" : String).data = natDigitsAux (n + 1) n := hd
    have hval := valBE_natDigitsAux (n + 1) n (by omega)
    rw [← hd2] at hval
    have : valBE ("0" : String).data = 0 := by decide
    omega
  · exfalso
    rw [if_neg hm, if_pos hn] at hd
    have hd2 : natDigitsAux (m + 1) m = ("0" : String).data := hd
    have hval := valBE_natDigitsAux (m + 1) m (by omega)
    rw [hd2] at hval
    have : valBE ("0" : String).data = 0 := by decide
    omega
  · rw [if_neg hm, if_neg hn] at hd
    have hd2 : natDigitsAux (m + 1) m = natDigitsAux (n + 1) n := hd
    have hm2 := valBE_natDigitsAux (m + 1) m (by omega)
    have hn2 := valBE_natDigitsAux (n + 1) n (by omega)
    rw [← hm2, ← hn2]
    exact congrArg valBE hd2

/-- Suffix candidates `base_i` are pairwise distinct across indices. -/
theorem candidate_inj (base : String) : Function.Injective
    (fun j : Nat => base ++ "_" ++ natRepr j) := by
  intro i j h
  apply natRepr_inj
  apply strExt
  have hd := congrArg String.data h
  rw [strData_append, strData_append] at hd
  exact List.append_cancel_left hd

/-- If some candidate within the fuel window is fresh, the collision loop
returns a name outside the seen set. -/
theorem freshAux_not_mem (base : String) (seen : List String) :
    ∀ fuel i, (∃ j, i ≤ j ∧ j < i + fuel ∧ (base ++ "_" ++ natRepr j) ∉ seen) →
      freshAux base seen fuel i ∉ seen := by
  intro fuel
  induction fuel with
  | zero =>
    intro i h
    obtain ⟨j, h1, h2, _⟩ := h
    omega
  | succ f ih =>
    intro i h
    obtain ⟨j, h1, h2, h3⟩ := h
    unfold freshAux
    by_cases hmem : (base ++ "_" ++ natRepr i) ∈ seen
    · rw [if_pos hmem]
      apply ih (i + 1)
      refine ⟨j, ?_, by omega, h3⟩
      rcases Nat.eq_or_lt_of_le h1 with heq | hlt
      · exact absurd hmem (heq ▸ h3)
      · omega
    · rw [if_neg hmem]
      exact hmem

/-- Pigeonhole: among `seen.length + 1` distinct candidates, at least one
is outside the seen list. -/
theorem fresh_candidate_exists (base : String) (seen : List String) (i : Nat) :
    ∃ j, i ≤ j ∧ j < i + (seen.length + 1) ∧ (base ++ "_" ++ natRepr j) ∉ seen := by
  by_contra hall
  push_neg at hall
  have hsub : (List.range' i (seen.length + 1)).map (fun j => base ++ "_" ++ natRepr j) ⊆ seen := by
    intro x hx
    rw [List.mem_map] at hx
    obtain ⟨j, hj, rfl⟩ := hx
    rw [List.mem_range'_1] at hj
    exact hall j hj.1 hj.2
  have hnd : ((List.range' i (seen.length + 1)).map (fun j => base ++ "_" ++ natRepr j)).Nodup :=
    (List.nodup_range' i (seen.length + 1)).map (candidate_inj base)
  have hlen := (List.subperm_of_subset hnd hsub).length_le
  rw [List.length_map, List.length_range'] at hlen
  omega

/-- The de-duplication step never returns a name already produced. -/
theorem dedupStep_not_mem (seen : List String) (col : String) :
    dedupStep seen col ∉ seen := by
  unfold dedupStep
  by_cases h : fsClean col ∈ seen
  · rw [if_pos h]
    exact freshAux_not_mem _ _ _ _ (fresh_candidate_exists (fsClean col) seen 1)
  · rw [if_neg h]
    exact h

/-- The de-duplicating fold preserves distinctness of the accumulator. -/
theorem dedup_foldl_nodup : ∀ (headers : List String) (acc : List String),
    acc.Nodup → (headers.foldl (fun a col => a ++ [dedupStep a col]) acc).Nodup := by
  intro headers
  induction headers with
  | nil => intro acc h; exact h
  | cons c cs ih =>
    intro acc h
    rw [List.foldl_cons]
    apply ih
    rw [List.nodup_append]
    refine ⟨h, List.nodup_singleton _, ?_⟩
    intro a ha hax
    rw [List.mem_singleton] at hax
    subst hax
    exact dedupStep_not_mem acc c ha

/-- C5 amended: the query-path loader (`sanitize_column_name` applied per
header) performs no de-duplication, so [Name, name, NAME] loads as
[name, name, name]; the `_1`, `_2` suffixing with pairwise-distinct output
belongs to the upload-time sanitizer `sanitize_column_names`, which maps
those headers to [name, name_1, name_2] and always returns pairwise
distinct names. -/
theorem upload_sanitizer_dedup :
    List.map sanitize_column_name ["Name", "name", "NAME"] = ["name", "name", "name"] ∧
    sanitize_column_names ["Name", "name", "NAME"] = ["name", "name_1", "name_2"] ∧
    ∀ headers : List String, (sanitize_column_names headers).Nodup := by
  refine ⟨by decide, by decide, ?_⟩
  intro headers
  unfold sanitize_column_names
  exact dedup_foldl_nodup headers [] List.nodup_nil

/-- The table component produced by one loader step does not depend on the
warnings accumulated so far. -/
theorem loadStep_fst_only (g : String → Option String)
    (rc re : String → Except String Frame) (t : List (String × Frame))
    (w w' : List String) (fo : FileObj) :
    (loadStep g rc re (t, w) fo).1 = (loadStep g rc re (t, w') fo).1 := by
  unfold loadStep
  cases hg : g fo.full_path with
  | none => rfl
  | some url =>
    dsimp only
    by_cases h1 : strEndsWith fo.file_name ".csv" = true
    · simp only [if_pos h1]
      cases rc url <;> rfl
    · simp only [if_neg h1]
      by_cases h2 : (strEndsWith fo.file_name ".xls" || strEndsWith fo.file_name ".xlsx") = true
      · simp only [if_pos h2]
        cases re url <;> rfl
      · simp only [if_neg h2]

/-- The tables accumulated by the loader fold do not depend on the warnings
accumulated so far. -/
theorem load_tables_warns_independent (g : String → Option String)
    (rc re : String → Except String Frame) :
    ∀ (l : List FileObj) (t : List (String × Frame)) (w w' : List String),
      (l.foldl (loadStep g rc re) (t, w)).1 = (l.foldl (loadStep g rc re) (t, w')).1 := by
  intro l
  induction l with
  | nil => intro t w w'; rfl
  | cons fo rest ih =>
    intro t w w'
    rw [List.foldl_cons, List.foldl_cons]
    have h1 : (rest.foldl (loadStep g rc re) (loadStep g rc re (t, w) fo)).1
        = (rest.foldl (loadStep g rc re)
            ((loadStep g rc re (t, w) fo).1, (loadStep g rc re (t, w) fo).2)).1 := rfl
    have h2 : (rest.foldl (loadStep g rc re) (loadStep g rc re (t, w') fo)).1
        = (rest.foldl (loadStep g rc re)
            ((loadStep g rc re (t, w') fo).1, (loadStep g rc re (t, w') fo).2)).1 := rfl
    rw [h1, h2, loadStep_fst_only g rc re t w w' fo]
    exact ih _ _ _

/-- C7: a file whose name does not end in .csv/.xls/.xlsx produces only an
unsupported-format report naming the file and registers no table; a parse
failure in either format branch (read_csv for .csv, read_excel for
.xls/.xlsx) or a retrieval failure likewise reports the filename and
registers nothing (never a partial table); and any file whose step
registers nothing leaves the tables produced from the remaining files
unchanged. -/
theorem loader_per_file_isolation :
    (∀ (g : String → Option String) (rc re : String → Except String Frame)
        (acc : List (String × Frame) × List String) (fo : FileObj) (url : String),
      g fo.full_path = some url →
      strEndsWith fo.file_name ".csv" = false →
      strEndsWith fo.file_name ".xls" = false →
      strEndsWith fo.file_name ".xlsx" = false →
      loadStep g rc re acc fo =
        (acc.1, acc.2 ++ ["Unsupported file format: " ++ fo.file_name])) ∧
    (∀ (g : String → Option String) (rc re : String → Except String Frame)
        (acc : List (String × Frame) × List String) (fo : FileObj) (url e : String),
      g fo.full_path = some url →
      strEndsWith fo.file_name ".csv" = true →
      rc url = Except.error e →
      loadStep g rc re acc fo =
        (acc.1, acc.2 ++ ["Error loading " ++ fo.file_name ++ ": " ++ e])) ∧
    (∀ (g : String → Option String) (rc re : String → Except String Frame)
        (acc : List (String × Frame) × List String) (fo : FileObj) (url e : String),
      g fo.full_path = some url →
      strEndsWith fo.file_name ".csv" = false →
      (strEndsWith fo.file_name ".xls" || strEndsWith fo.file_name ".xlsx") = true →
      re url = Except.error e →
      loadStep g rc re acc fo =
        (acc.1, acc.2 ++ ["Error loading " ++ fo.file_name ++ ": " ++ e])) ∧
    (∀ (g : String → Option String) (rc re : String → Except String Frame)
        (acc : List (String × Frame) × List String) (fo : FileObj),
      g fo.full_path = none →
      loadStep g rc re acc fo =
        (acc.1, acc.2 ++ ["Could not get URL for " ++ fo.file_name])) ∧
    (∀ (g : String → Option String) (rc re : String → Except String Frame)
        (l1 l2 : List FileObj) (fo : FileObj),
      (∀ acc, (loadStep g rc re acc fo).1 = acc.1) →
      (load_file_as_table (l1 ++ fo :: l2) g rc re).1 =
        (load_file_as_table (l1 ++ l2) g rc re).1) := by
  refine ⟨?_, ?_, ?_, ?_, ?_⟩
  · intro g rc re acc fo url hg h1 h2 h3
    unfold loadStep
    rw [hg]
    dsimp only
    rw [if_neg (by simp [h1]), if_neg (by simp [h2, h3])]
  · intro g rc re acc fo url e hg h1 hrc
    unfold loadStep
    rw [hg]
    dsimp only
    rw [if_pos h1, hrc]
  · intro g rc re acc fo url e hg h1 h2 hre
    unfold loadStep
    rw [hg]
    dsimp only
    rw [if_neg (by simp [h1]), if_pos h2, hre]
  · intro g rc re acc fo hg
    unfold loadStep
    rw [hg]
  · intro g rc re l1 l2 fo hfail
    unfold load_file_as_table
    rw [List.foldl_append, List.foldl_append, List.foldl_cons]
    have h1 : loadStep g rc re (l1.foldl (loadStep g rc re) ([], [])) fo =
        ((l1.foldl (loadStep g rc re) ([], [])).1,
         (loadStep g rc re (l1.foldl (loadStep g rc re) ([], [])) fo).2) := by
      rw [← hfail (l1.foldl (loadStep g rc re) ([], []))]
    rw [h1]
    exact load_tables_warns_independent g rc re l2
      (l1.foldl (loadStep g rc re) ([], [])).1 _ _

/-- Witness for C7: a .txt file is reported as unsupported, a failing
.xlsx parse is reported with the filename, neither registers a table, and
the .txt file does not prevent the following .csv file from loading. -/
theorem loader_per_file_isolation_witness :
    loadStep (fun _ => some "u") (fun _ => Except.ok ⟨["x"]⟩) (fun _ => Except.error "boom")
        (([] : List (String × Frame)), ([] : List String)) ⟨"notes.txt", "p"⟩ =
      ((([] : List (String × Frame)), ([] : List String)).1,
       (([] : List (String × Frame)), ([] : List String)).2
         ++ ["Unsupported file format: " ++ "notes.txt"]) ∧
    loadStep (fun _ => some "u") (fun _ => Except.ok ⟨["x"]⟩) (fun _ => Except.error "boom")
        (([] : List (String × Frame)), ([] : List String)) ⟨"sheet.xlsx", "r"⟩ =
      ((([] : List (String × Frame)), ([] : List String)).1,
       (([] : List (String × Frame)), ([] : List String)).2
         ++ ["Error loading " ++ "sheet.xlsx" ++ ": " ++ "boom"]) ∧
    (load_file_as_table ([] ++ (⟨"notes.txt", "p"⟩ : FileObj) :: [⟨"b.csv", "q"⟩])
        (fun _ => some "u") (fun _ => Except.ok ⟨["x"]⟩) (fun _ => Except.error "boom")).1 =
      (load_file_as_table ([] ++ [⟨"b.csv", "q"⟩]) (fun _ => some "u")
        (fun _ => Except.ok ⟨["x"]⟩) (fun _ => Except.error "boom")).1 :=
  ⟨loader_per_file_isolation.1 _ _ _ (([] : List (String × Frame)), ([] : List String))
     ⟨"notes.txt", "p"⟩ "u" rfl (by decide) (by decide) (by decide),
   loader_per_file_isolation.2.2.1 _ _ _ (([] : List (String × Frame)), ([] : List String))
     ⟨"sheet.xlsx", "r"⟩ "u" "boom" rfl (by decide) (by decide) rfl,
   loader_per_file_isolation.2.2.2.2 _ _ _ [] [⟨"b.csv", "q"⟩] ⟨"notes.txt", "p"⟩
     (fun acc => by
       rw [loader_per_file_isolation.1 _ _ _ acc ⟨"notes.txt", "p"⟩ "u" rfl
         (by decide) (by decide) (by decide)])⟩

end SmartSql
